import Mathlib

/-!
Verification of the noggin user-settings request handlers
(`src/noggin/controller/user.py`) and the request-scoped decorators
(`src/noggin/utility/__init__.py`) against the repository specification.

The handlers are shallowly embedded as pure functions.  A handler takes
the per-request inputs — the session, the parsed form submission, the
route's `username` path parameter — together with a `Backend` oracle that
fixes what every remote-identity-service call would return, and produces a
`HandlerResult` recording, in order, the backend calls issued, the flash
notifications emitted, the log lines written, the final session state and
the HTTP response.  Form validation constraints live outside this excerpt
(the form classes are imported from `noggin.form.edit_user`), so the
outcome of `validate_on_submit()` and the field-level errors it would
attach are inputs to the model, carried on the submission structures.
-/

namespace Noggin

/-- The per-request server-side session (`flask.session`).  The code uses
exactly two keys: `noggin_username` and `otp_uri`; `none` models an absent
key (Python's `session.get` then returns `None`; the handler
`user_settings_otp` also stores a literal `None`, indistinguishable from
absence through `session.get`). -/
structure Session where
  noggin_username : Option String
  otp_uri : Option String
deriving DecidableEq, Repr

/-- A flash notification: `flash(message, category)`. -/
structure Flash where
  message : String
  category : String
deriving DecidableEq, Repr

/-- The keyword arguments of the `ipa.user_mod` call made from
`user_settings_profile` (`src/noggin/controller/user.py` lines 61-78). -/
structure ProfileDetails where
  first_name : String
  last_name : String
  full_name : String
  display_name : String
  mail : String
  fasircnick : String
  faslocale : String
  fastimezone : String
  fasgithubusername : String
  fasgitlabusername : String
  fasrhbzemail : String
deriving DecidableEq, Repr

/-- The keyword arguments of the `ipa.user_mod` call made from
`user_settings_keys` (`src/noggin/controller/user.py` line 103). -/
structure KeysDetails where
  ipasshpubkey : List String
  fasgpgkeyid : List String
deriving DecidableEq, Repr

/-- The two shapes of `ipa.user_mod(username, **details)` occurring in the
source. -/
inductive UserModDetails where
  | profile (d : ProfileDetails)
  | keys (d : KeysDetails)
deriving DecidableEq, Repr

/-- One call to the remote identity backend, as issued by the handlers.
`user_show` and `otptoken_find` and `group_find` are reads; `user_mod` and
`otptoken_add` mutate backend state. -/
inductive BackendCall where
  | user_show (username : String)
  | user_find_whoami
  | group_find_member (username : String)
  | group_find_manager (username : String)
  | otptoken_find (owner : String)
  | user_mod (username : String) (details : UserModDetails)
  | otptoken_add (ipatokenowner : String) (ipatokenotpalgorithm : String)
      (description : String)
deriving DecidableEq, Repr

/-- Whether a backend call mutates backend state. -/
def BackendCall.isMutation : BackendCall → Bool
  | .user_mod _ _ => true
  | .otptoken_add _ _ _ => true
  | _ => false

/-- The projection of a backend identity record used by these handlers:
`user.gpgkeys` is consulted by `user_settings_otp_add`. -/
structure UserRecord where
  gpgkeys : List String
deriving DecidableEq, Repr

/-- Oracle fixing the outcome of every backend operation for the duration
of one request.  `user_show` returns `none` when the backend raises
`NotFound` (then `user_or_404` aborts with 404).  `user_mod` returns
`some msg` when the backend raises `BadRequest` with message `msg`, and
`none` on success.  `otptoken_add` returns the provisioning URI on
success, or the message of the raised `FreeIPAError`. -/
structure Backend where
  user_show : String → Option UserRecord
  user_mod : String → UserModDetails → Option String
  otptoken_add : String → String → String → Except String String
  user_find_whoami : UserRecord
  otptoken_find : String → List UserRecord

/-- An HTTP response as produced by these handlers: a redirect built with
`url_for(endpoint, username=...)` (`username := none` for endpoints that
take no username, such as `root`), a template render, or an
`abort(404)`. -/
inductive Response where
  | redirect (endpoint : String) (username : Option String)
  | render (template : String)
  | notFound
deriving DecidableEq, Repr

/-- Everything observable about one handler invocation: the backend calls
in program order, the flashed notifications in order, the `app.logger`
lines, the response, the session as left behind, the form's error
dictionary as rendered (association list keyed by field name), whether
`form.validate_on_submit()` was invoked, the `otp_uri` value handed to the
template by the OTP view, and the final lengths of the key form's
`gpgkeys` / `sshpubkeys` field lists. -/
structure HandlerResult where
  calls : List BackendCall := []
  flashes : List Flash := []
  logs : List String := []
  response : Response
  session : Session
  formErrors : List (String × List String) := []
  validatorCalled : Bool := false
  renderedOtpUri : Option String := none
  gpgEntryCount : Nat := 0
  sshEntryCount : Nat := 0
deriving Repr

/-- Python's `dict` assignment `errors[key] = value` on an association
list: replaces the value at `key` if present, appends otherwise. -/
def setError (errs : List (String × List String)) (key : String)
    (value : List String) : List (String × List String) :=
  if errs.any (fun p => p.1 = key) then
    errs.map (fun p => if p.1 = key then (key, value) else p)
  else
    errs ++ [(key, value)]

/-- `s.lstrip('@')`: Python removes every leading occurrence of the
character `@`. -/
def lstripAt (s : String) : String :=
  String.mk (s.data.dropWhile (fun c => c == '@'))

/-- The outcome of the helper `_user_mod(ipa, form, username, details)`
(`src/noggin/controller/user.py` lines 33-46), given the backend's answer
to `ipa.user_mod` and the form's error dictionary at entry.  On success it
flashes and returns a redirect to the user view; a `BadRequest` whose
message is exactly `no modifications to be performed` is attached to the
form silently; any other `BadRequest` is additionally logged.  The helper
returns `None` (here `none`) in both error cases. -/
structure ModOutcome where
  flashes : List Flash
  logs : List String
  formErrors : List (String × List String)
  response : Option Response
deriving Repr

def user_mod_outcome (backendAnswer : Option String)
    (errs : List (String × List String)) (username : String) : ModOutcome :=
  match backendAnswer with
  | none =>
      { flashes := [⟨"Profile has been succesfully updated.", "success"⟩]
        logs := []
        formErrors := errs
        response := some (.redirect "user" (some username)) }
  | some msg =>
      if msg = "no modifications to be performed" then
        { flashes := []
          logs := []
          formErrors := setError errs "non_field_errors" [msg]
          response := none }
      else
        { flashes := []
          logs := [s!"An error happened while editing user {username}: {msg}"]
          formErrors := setError errs "non_field_errors" [msg]
          response := none }

/-- Submitted data of `UserSettingsProfileForm`. -/
structure ProfileFormData where
  firstname : String
  lastname : String
  mail : String
  ircnick : String
  locale : String
  timezone : String
  github : String
  gitlab : String
  rhbz_mail : String
deriving DecidableEq, Repr

/-- A profile form submission: its data, the outcome of
`validate_on_submit()` (false both for a GET and for a failed validation),
and the field-level errors validation attaches (empty on a GET). -/
structure ProfileSubmission where
  data : ProfileFormData
  valid : Bool
  errors : List (String × List String)

/-- The `details` dictionary built inline in `user_settings_profile`
(lines 65-77): names are joined as `'%s %s'`, GitHub/GitLab usernames get
`.lstrip('@')`. -/
def profileDetails (d : ProfileFormData) : ProfileDetails :=
  { first_name := d.firstname
    last_name := d.lastname
    full_name := d.firstname ++ " " ++ d.lastname
    display_name := d.firstname ++ " " ++ d.lastname
    mail := d.mail
    fasircnick := d.ircnick
    faslocale := d.locale
    fastimezone := d.timezone
    fasgithubusername := lstripAt d.github
    fasgitlabusername := lstripAt d.gitlab
    fasrhbzemail := d.rhbz_mail }

/-- Handler `user_settings_profile` (`src/noggin/controller/user.py`
lines 49-84). -/
def user_settings_profile (ipa : Backend) (sess : Session)
    (form : ProfileSubmission) (username : String) : HandlerResult :=
  if sess.noggin_username ≠ some username then
    { flashes := [⟨"You do not have permission to edit this account.", "danger"⟩]
      response := .redirect "user" (some username)
      session := sess }
  else
    match ipa.user_show username with
    | none =>
        { calls := [.user_show username], response := .notFound, session := sess }
    | some _user =>
        if form.valid then
          let details := UserModDetails.profile (profileDetails form.data)
          let mr := user_mod_outcome (ipa.user_mod username details) form.errors username
          { calls := [.user_show username, .user_mod username details]
            flashes := mr.flashes
            logs := mr.logs
            response := mr.response.getD (.render "user-settings-profile.html")
            session := sess
            formErrors := mr.formErrors
            validatorCalled := true }
        else
          { calls := [.user_show username]
            response := .render "user-settings-profile.html"
            session := sess
            formErrors := form.errors
            validatorCalled := true }

/-- Submitted data of `UserSettingsKeysForm`: the two field lists, the
outcome of `validate_on_submit()`, the field-level errors validation
attaches, and the current number of entries in each field list (as built
from `obj=user`). -/
structure KeysSubmission where
  sshpubkeys : List String
  gpgkeys : List String
  valid : Bool
  errors : List (String × List String)
  gpgEntryCount : Nat
  sshEntryCount : Nat

/-- Handler `user_settings_keys` (`src/noggin/controller/user.py`
lines 87-118).  After the optional mutation, two empty entries are
appended to each field list — but only when the form's error dictionary is
empty, so repeated failed submissions do not grow the lists. -/
def user_settings_keys (ipa : Backend) (sess : Session)
    (form : KeysSubmission) (username : String) : HandlerResult :=
  if sess.noggin_username ≠ some username then
    { flashes := [⟨"You do not have permission to edit this account.", "danger"⟩]
      response := .redirect "user" (some username)
      session := sess }
  else
    match ipa.user_show username with
    | none =>
        { calls := [.user_show username], response := .notFound, session := sess }
    | some _user =>
        let details := UserModDetails.keys
          { ipasshpubkey := form.sshpubkeys, fasgpgkeyid := form.gpgkeys }
        if form.valid then
          let mr := user_mod_outcome (ipa.user_mod username details) form.errors username
          match mr.response with
          | some r =>
              { calls := [.user_show username, .user_mod username details]
                flashes := mr.flashes
                logs := mr.logs
                response := r
                session := sess
                formErrors := mr.formErrors
                validatorCalled := true
                gpgEntryCount := form.gpgEntryCount
                sshEntryCount := form.sshEntryCount }
          | none =>
              { calls := [.user_show username, .user_mod username details]
                flashes := mr.flashes
                logs := mr.logs
                response := .render "user-settings-keys.html"
                session := sess
                formErrors := mr.formErrors
                validatorCalled := true
                gpgEntryCount :=
                  if mr.formErrors = [] then form.gpgEntryCount + 2
                  else form.gpgEntryCount
                sshEntryCount :=
                  if mr.formErrors = [] then form.sshEntryCount + 2
                  else form.sshEntryCount }
        else
          { calls := [.user_show username]
            response := .render "user-settings-keys.html"
            session := sess
            formErrors := form.errors
            validatorCalled := true
            gpgEntryCount :=
              if form.errors = [] then form.gpgEntryCount + 2
              else form.gpgEntryCount
            sshEntryCount :=
              if form.errors = [] then form.sshEntryCount + 2
              else form.sshEntryCount }

/-- Handler `user_settings_otp` (`src/noggin/controller/user.py`
lines 121-148): a read handler that also consumes the one-shot
`otp_uri` session value — it reads it into the template context and
overwrites it with `None`. -/
def user_settings_otp (ipa : Backend) (sess : Session)
    (username : String) : HandlerResult :=
  if sess.noggin_username ≠ some username then
    { flashes := [⟨"You do not have permission to edit this account.", "danger"⟩]
      response := .redirect "user" (some username)
      session := sess }
  else
    match ipa.user_show username with
    | none =>
        { calls := [.user_show username], response := .notFound, session := sess }
    | some _user =>
        let uri := sess.otp_uri
        { calls := [.user_show username, .otptoken_find username]
          response := .render "user-settings-otp.html"
          session := { sess with otp_uri := none }
          renderedOtpUri := uri }

/-- Submitted data of `UserSettingsAddOTPForm`. -/
structure OTPSubmission where
  description : String
  valid : Bool
  errors : List (String × List String)

/-- Python's `session.get('noggin_username')` coerced to the string the
code then passes as `ipatokenowner`; the only call site sits behind the
self-check, which guarantees the key is present and holds `username`. -/
def sessionUsername (sess : Session) : String :=
  sess.noggin_username.getD ""

/-- Handler `user_settings_otp_add` (`src/noggin/controller/user.py`
lines 151-190).  Branch order follows the source: self-check, identity
lookup, GPG-key precondition (short-circuits before
`validate_on_submit`), validation, `otptoken_add` with the hard-coded
`sha512` algorithm and the owner re-read from the session, then every
form error is flashed as `danger` and the handler redirects to the OTP
view unconditionally. -/
def user_settings_otp_add (ipa : Backend) (sess : Session)
    (form : OTPSubmission) (username : String) : HandlerResult :=
  if sess.noggin_username ≠ some username then
    { flashes := [⟨"You do not have permission to edit this account.", "danger"⟩]
      response := .redirect "user" (some username)
      session := sess }
  else
    match ipa.user_show username with
    | none =>
        { calls := [.user_show username], response := .notFound, session := sess }
    | some user =>
        if user.gpgkeys = [] then
          { calls := [.user_show username]
            flashes :=
              [⟨"Cannot create an OTP token without a GPG Key. Please add a GPG Key",
                "info"⟩]
            response := .redirect "user_settings_otp" (some username)
            session := sess }
        else
          let errorFlashes : List Flash :=
            (form.errors.map Prod.snd).flatten.map (fun e => ⟨e, "danger"⟩)
          if form.valid then
            let owner := sessionUsername sess
            match ipa.otptoken_add owner "sha512" form.description with
            | .ok uri =>
                { calls := [.user_show username,
                            .otptoken_add owner "sha512" form.description]
                  flashes := errorFlashes
                  response := .redirect "user_settings_otp" (some username)
                  session := { sess with otp_uri := some uri }
                  formErrors := form.errors
                  validatorCalled := true }
            | .error msg =>
                { calls := [.user_show username,
                            .otptoken_add owner "sha512" form.description]
                  flashes := ⟨"Cannot create the token.", "danger"⟩ :: errorFlashes
                  logs := [s!"An error happened while creating an OTP token for user {owner}: {msg}"]
                  response := .redirect "user_settings_otp" (some username)
                  session := sess
                  formErrors := form.errors
                  validatorCalled := true }
          else
            { calls := [.user_show username]
              flashes := errorFlashes
              response := .redirect "user_settings_otp" (some username)
              session := sess
              formErrors := form.errors
              validatorCalled := true }

/-- The observable outcome of one request through the `with_ipa`
decorator's wrapper (`src/noggin/utility/__init__.py` lines 27-41):
whether the wrapped handler ran, the ambient per-request context
(`g.ipa` set, `g.current_user`), and the combined call/flash/response
record. -/
structure WithIpaResult where
  calls : List BackendCall
  flashes : List Flash
  logs : List String
  response : Response
  session : Session
  invoked : Bool
  gIpaSet : Bool
  gCurrentUser : Option UserRecord

/-- The wrapper produced by `with_ipa`: `maybe_ipa_session` (external,
`noggin.security.ipa`) either yields an authenticated handle or not,
which we take as the `Option Backend` input.  With a handle, `g.ipa` and
`g.current_user` are set — the latter from `ipa.user_find(whoami=True)`,
issued before the wrapped handler — and the handler runs; without one,
the user is flashed a warning and redirected to `root`. -/
def with_ipa_run (maybeIpa : Option Backend) (sess : Session)
    (f : Backend → HandlerResult) : WithIpaResult :=
  match maybeIpa with
  | some ipa =>
      let inner := f ipa
      { calls := .user_find_whoami :: inner.calls
        flashes := inner.flashes
        logs := inner.logs
        response := inner.response
        session := inner.session
        invoked := true
        gIpaSet := true
        gCurrentUser := some ipa.user_find_whoami }
  | none =>
      { calls := []
        flashes := [⟨"Please log in to continue.", "warning"⟩]
        logs := []
        response := .redirect "root" none
        session := sess
        invoked := false
        gIpaSet := false
        gCurrentUser := none }

/-! Concrete fixtures used to evaluate the model on closed inputs, mirroring
the `dummy` user of the test suite (`src/noggin/tests/unit/conftest.py`). -/

def sampleUser : UserRecord := { gpgkeys := ["ABCD1234"] }

def userNoKeys : UserRecord := { gpgkeys := [] }

def okBackend : Backend where
  user_show := fun _ => some sampleUser
  user_mod := fun _ _ => none
  otptoken_add := fun _ _ _ => .ok "otpauth://totp/sample"
  user_find_whoami := sampleUser
  otptoken_find := fun _ => []

def badRequestBackend : Backend :=
  { okBackend with user_mod := fun _ _ => some "kaboom" }

def noKeysBackend : Backend :=
  { okBackend with user_show := fun _ => some userNoKeys }

def otpErrorBackend : Backend :=
  { okBackend with otptoken_add := fun _ _ _ => .error "boom" }

def dummySession : Session := { noggin_username := some "dummy", otp_uri := none }

def eveSession : Session := { noggin_username := some "eve", otp_uri := none }

def sampleProfileData : ProfileFormData :=
  { firstname := "Dummy", lastname := "User", mail := "dummy@example.com"
    ircnick := "dummy", locale := "en-US", timezone := "UTC"
    github := "@octocat", gitlab := "octocat", rhbz_mail := "dummy@example.com" }

def validProfileForm : ProfileSubmission :=
  { data := sampleProfileData, valid := true, errors := [] }

def invalidProfileForm : ProfileSubmission :=
  { data := sampleProfileData, valid := false,
    errors := [("mail", ["Email must not be blank."])] }

def sampleKeysForm : KeysSubmission :=
  { sshpubkeys := ["ssh-rsa AAAA"], gpgkeys := ["ABCD1234"], valid := true
    errors := [], gpgEntryCount := 1, sshEntryCount := 1 }

def invalidKeysForm : KeysSubmission :=
  { sampleKeysForm with
    valid := false
    errors := [("sshpubkeys", ["Invalid key."])] }

def getKeysForm : KeysSubmission :=
  { sampleKeysForm with valid := false, errors := [] }

def validOTPForm : OTPSubmission :=
  { description := "my token", valid := true, errors := [] }

def invalidOTPForm : OTPSubmission :=
  { description := "", valid := false,
    errors := [("description", ["This field is required."])] }

/-- The identity-mismatch rejection shared by all four settings handlers:
nothing reaches the backend, exactly one danger flash, a redirect to the
read view, and the session untouched. -/
def rejectedWithPermissionDenied (sess : Session) (username : String)
    (r : HandlerResult) : Prop :=
  r.calls = [] ∧
  r.flashes = [⟨"You do not have permission to edit this account.", "danger"⟩] ∧
  r.response = .redirect "user" (some username) ∧
  r.session = sess

/-! Helper lemmas. -/

theorem dropWhile_self_idem (p : Char → Bool) (l : List Char) :
    (l.dropWhile p).dropWhile p = l.dropWhile p := by
  induction l with
  | nil => rfl
  | cons a t ih =>
    by_cases h : p a
    · simp [List.dropWhile_cons, h, ih]
    · simp [List.dropWhile_cons, h]

theorem setError_ne_nil (errs : List (String × List String)) (key : String)
    (value : List String) : setError errs key value ≠ [] := by
  unfold setError
  split
  · next h =>
    intro hm
    rw [List.map_eq_nil_iff] at hm
    subst hm
    simp at h
  · simp

/-- C1: for every request to one of the four settings routes (profile
edit, keys edit, OTP view, OTP add) in which the session's
`noggin_username` differs from the route's `username` path parameter, the
handler issues no backend call at all (in particular no mutation), emits
exactly one danger flash saying the caller may not edit the account,
responds with a redirect to the read view `user`, and leaves the session
unchanged. -/
theorem settings_mismatch_rejected (ipa : Backend) (sess : Session)
    (pform : ProfileSubmission) (kform : KeysSubmission)
    (oform : OTPSubmission) (username : String)
    (h : sess.noggin_username ≠ some username) :
    rejectedWithPermissionDenied sess username
      (user_settings_profile ipa sess pform username) ∧
    rejectedWithPermissionDenied sess username
      (user_settings_keys ipa sess kform username) ∧
    rejectedWithPermissionDenied sess username
      (user_settings_otp ipa sess username) ∧
    rejectedWithPermissionDenied sess username
      (user_settings_otp_add ipa sess oform username) := by
  refine ⟨?_, ?_, ?_, ?_⟩ <;>
    simp [rejectedWithPermissionDenied, user_settings_profile,
      user_settings_keys, user_settings_otp, user_settings_otp_add, h]

/-- Witness for C1 at a concrete mismatched request: session user `eve`,
route user `dummy`. -/
theorem settings_mismatch_rejected_witness :
    rejectedWithPermissionDenied eveSession "dummy"
      (user_settings_profile okBackend eveSession validProfileForm "dummy") ∧
    rejectedWithPermissionDenied eveSession "dummy"
      (user_settings_otp_add okBackend eveSession validOTPForm "dummy") :=
  have h := settings_mismatch_rejected okBackend eveSession validProfileForm
    sampleKeysForm validOTPForm "dummy" (by decide)
  ⟨h.1, h.2.2.2⟩

/-- C7: GitHub and GitLab usernames are stored with every leading `@`
removed — the profile mutation's `fasgithubusername` / `fasgitlabusername`
fields are `lstripAt` of the submitted values; `lstripAt` maps `@octocat`
and `octocat` both to `octocat` and is idempotent. -/
theorem github_gitlab_lstrip_at (d : ProfileFormData) (s : String) :
    (profileDetails d).fasgithubusername = lstripAt d.github ∧
    (profileDetails d).fasgitlabusername = lstripAt d.gitlab ∧
    lstripAt "@octocat" = "octocat" ∧
    lstripAt "octocat" = "octocat" ∧
    lstripAt (lstripAt s) = lstripAt s := by
  refine ⟨rfl, rfl, by decide, rfl, ?_⟩
  simp [lstripAt, dropWhile_self_idem]

/-- C2: through the `with_ipa` wrapper, a request whose session yields no
authenticated handle never reaches the wrapped handler — no backend call
is made, one warning flash asks the user to log in, and the response
redirects to the `root` login entry point; a request with a handle runs
the handler with `g.ipa` and `g.current_user` set, the latter from a
`user_find(whoami=True)` lookup that stands first in the call trace and,
for any wrapped handler that does not itself issue that lookup, happens
exactly once in the request. -/
theorem with_ipa_gate (ipa : Backend) (sess : Session)
    (f : Backend → HandlerResult)
    (hf : (f ipa).calls.count BackendCall.user_find_whoami = 0) :
    ((with_ipa_run none sess f).invoked = false ∧
     (with_ipa_run none sess f).calls = [] ∧
     (with_ipa_run none sess f).flashes =
       [⟨"Please log in to continue.", "warning"⟩] ∧
     (with_ipa_run none sess f).response = .redirect "root" none ∧
     (with_ipa_run none sess f).session = sess) ∧
    ((with_ipa_run (some ipa) sess f).invoked = true ∧
     (with_ipa_run (some ipa) sess f).gIpaSet = true ∧
     (with_ipa_run (some ipa) sess f).gCurrentUser = some ipa.user_find_whoami ∧
     (with_ipa_run (some ipa) sess f).calls =
       BackendCall.user_find_whoami :: (f ipa).calls ∧
     (with_ipa_run (some ipa) sess f).calls.count BackendCall.user_find_whoami
       = 1) := by
  refine ⟨by simp [with_ipa_run], ?_, ?_, ?_, ?_, ?_⟩ <;>
    simp [with_ipa_run, List.count_cons, hf]

/-- Witness for C2 with the profile handler as the wrapped function. -/
theorem with_ipa_gate_witness :
    (with_ipa_run none dummySession
      (fun b => user_settings_profile b dummySession validProfileForm "dummy")).invoked
      = false ∧
    (with_ipa_run (some okBackend) dummySession
      (fun b => user_settings_profile b dummySession validProfileForm "dummy")).calls.count
      BackendCall.user_find_whoami = 1 :=
  have h := with_ipa_gate okBackend dummySession
    (fun b => user_settings_profile b dummySession validProfileForm "dummy")
    (by decide)
  ⟨h.1.1, h.2.2.2.2.2⟩

/-- C4: the OTP view hands the session's `otp_uri` to the template and
clears it, so within one session the first view after the add handler
stored a URI renders it and a second view renders none. -/
theorem otp_uri_read_then_clear (ipa : Backend) (sess : Session)
    (username : String) (u : UserRecord)
    (hs : sess.noggin_username = some username)
    (hu : ipa.user_show username = some u) :
    (user_settings_otp ipa sess username).renderedOtpUri = sess.otp_uri ∧
    (user_settings_otp ipa sess username).session.otp_uri = none ∧
    (user_settings_otp ipa
      (user_settings_otp ipa sess username).session username).renderedOtpUri
      = none := by
  simp [user_settings_otp, hs, hu]

/-- Witness for C4: after the add handler stores a URI, the first view
renders it and the second renders none. -/
theorem otp_uri_read_then_clear_witness :
    (user_settings_otp okBackend
      { dummySession with otp_uri := some "otpauth://totp/sample" }
      "dummy").renderedOtpUri = some "otpauth://totp/sample" ∧
    (user_settings_otp okBackend
      (user_settings_otp okBackend
        { dummySession with otp_uri := some "otpauth://totp/sample" }
        "dummy").session "dummy").renderedOtpUri = none :=
  have h := otp_uri_read_then_clear okBackend
    { dummySession with otp_uri := some "otpauth://totp/sample" }
    "dummy" sampleUser (by decide) (by decide)
  ⟨h.1, h.2.2⟩

/-- C5: a successful profile edit (self-authorized, validated, accepted by
the backend) issues exactly one mutating backend call, a `user_mod` whose
`full_name` and `display_name` are the submitted first and last names
joined by a single space; the user is flashed a success message and
redirected to the read view. -/
theorem profile_edit_success_mod_call (ipa : Backend) (sess : Session)
    (form : ProfileSubmission) (username : String) (u : UserRecord)
    (hs : sess.noggin_username = some username)
    (hu : ipa.user_show username = some u)
    (hv : form.valid = true)
    (hok : ipa.user_mod username (.profile (profileDetails form.data)) = none) :
    (user_settings_profile ipa sess form username).calls.filter
      BackendCall.isMutation =
      [.user_mod username (.profile (profileDetails form.data))] ∧
    (profileDetails form.data).full_name =
      form.data.firstname ++ " " ++ form.data.lastname ∧
    (profileDetails form.data).display_name =
      form.data.firstname ++ " " ++ form.data.lastname ∧
    (user_settings_profile ipa sess form username).response =
      .redirect "user" (some username) ∧
    (user_settings_profile ipa sess form username).flashes =
      [⟨"Profile has been succesfully updated.", "success"⟩] := by
  refine ⟨?_, rfl, rfl, ?_, ?_⟩ <;>
    simp [user_settings_profile, user_mod_outcome, hs, hu, hv, hok,
      List.filter, BackendCall.isMutation]

/-- Witness for C5 at the concrete `dummy` fixtures. -/
theorem profile_edit_success_mod_call_witness :
    (user_settings_profile okBackend dummySession validProfileForm
      "dummy").calls.filter BackendCall.isMutation =
      [.user_mod "dummy" (.profile (profileDetails sampleProfileData))] ∧
    (profileDetails sampleProfileData).full_name = "Dummy User" :=
  have h := profile_edit_success_mod_call okBackend dummySession
    validProfileForm "dummy" sampleUser (by decide) (by decide) (by decide)
    (by decide)
  ⟨h.1, h.2.1⟩

/-- C10: every OTP token created through the add handler is created by a
single `otptoken_add` call whose algorithm is the hard-coded `sha512`
(the form contributes only the description) and whose owner is the
`noggin_username` re-read from the session after validation, which the
self-check guarantees equals the route's `username`. -/
theorem otp_add_sha512_owner (ipa : Backend) (sess : Session)
    (form : OTPSubmission) (username : String) (u : UserRecord)
    (hs : sess.noggin_username = some username)
    (hu : ipa.user_show username = some u)
    (hg : u.gpgkeys ≠ [])
    (hv : form.valid = true) :
    (user_settings_otp_add ipa sess form username).calls.filter
      BackendCall.isMutation =
      [.otptoken_add (sessionUsername sess) "sha512" form.description] ∧
    sessionUsername sess = username := by
  refine ⟨?_, by simp [sessionUsername, hs]⟩
  cases hres : ipa.otptoken_add (sessionUsername sess) "sha512" form.description <;>
    simp [user_settings_otp_add, hs, hu, hg, hv, hres, List.filter,
      BackendCall.isMutation]

/-- Witness for C10: concrete token creation by `dummy`. -/
theorem otp_add_sha512_owner_witness :
    (user_settings_otp_add okBackend dummySession validOTPForm
      "dummy").calls.filter BackendCall.isMutation =
      [.otptoken_add (sessionUsername dummySession) "sha512" "my token"] ∧
    sessionUsername dummySession = "dummy" :=
  otp_add_sha512_owner okBackend dummySession validOTPForm "dummy" sampleUser
    (by decide) (by decide) (by decide) (by decide)

/-- C9: when the keys handler reaches its render, it pads both field lists
with exactly two fresh empty entries if the form carries no errors, and
pads nothing when it carries any error, so repeated failed submissions do
not grow the lists. -/
theorem keys_entry_padding (ipa : Backend) (sess : Session)
    (form : KeysSubmission) (username : String) (u : UserRecord)
    (hs : sess.noggin_username = some username)
    (hu : ipa.user_show username = some u)
    (hr : (user_settings_keys ipa sess form username).response =
      .render "user-settings-keys.html") :
    ((user_settings_keys ipa sess form username).formErrors = [] →
      (user_settings_keys ipa sess form username).gpgEntryCount =
        form.gpgEntryCount + 2 ∧
      (user_settings_keys ipa sess form username).sshEntryCount =
        form.sshEntryCount + 2) ∧
    ((user_settings_keys ipa sess form username).formErrors ≠ [] →
      (user_settings_keys ipa sess form username).gpgEntryCount =
        form.gpgEntryCount ∧
      (user_settings_keys ipa sess form username).sshEntryCount =
        form.sshEntryCount) := by
  by_cases hv : form.valid
  · cases hmod : ipa.user_mod username
      (.keys { ipasshpubkey := form.sshpubkeys, fasgpgkeyid := form.gpgkeys }) with
    | none =>
      simp [user_settings_keys, user_mod_outcome, hs, hu, hv, hmod] at hr
    | some msg =>
      have hne := setError_ne_nil form.errors "non_field_errors" [msg]
      by_cases hm : msg = "no modifications to be performed" <;>
        simp [user_settings_keys, user_mod_outcome, hs, hu, hv, hmod, hm, hne]
  · by_cases he : form.errors = [] <;>
      simp [user_settings_keys, hs, hu, hv, he]

/-- Witness for C9: a GET of the keys page (no errors) pads each list by
two entries. -/
theorem keys_entry_padding_witness :
    (user_settings_keys okBackend dummySession getKeysForm
      "dummy").gpgEntryCount = getKeysForm.gpgEntryCount + 2 ∧
    (user_settings_keys okBackend dummySession getKeysForm
      "dummy").sshEntryCount = getKeysForm.sshEntryCount + 2 :=
  (keys_entry_padding okBackend dummySession getKeysForm "dummy" sampleUser
    (by decide) (by decide) (by decide)).1 (by decide)

/-- C6 counterexample: a self-authorized POST to the OTP-add route for a
user with zero GPG keys does issue a backend call — the `user_show`
identity lookup performed by `user_or_404` before the GPG check — so the
claim that the handler makes no backend call is false as stated; the call
trace is exactly that single read. -/
theorem otp_add_no_gpg_cex :
    (user_settings_otp_add noKeysBackend dummySession validOTPForm
      "dummy").calls ≠ [] ∧
    (user_settings_otp_add noKeysBackend dummySession validOTPForm
      "dummy").calls = [.user_show "dummy"] := by
  refine ⟨?_, ?_⟩ <;> decide

/-- C6 amended: for a self-authorized OTP-add POST on an identity with
zero GPG keys, the handler issues no backend call beyond the initial
`user_show` identity lookup — in particular no mutation — never invokes
the form validator, flashes one informational notification and redirects
to the OTP view; with at least one GPG key and a validating form, the
validator runs and the backend `otptoken_add` call is issued. -/
theorem otp_add_gpg_precondition (ipa : Backend) (sess : Session)
    (form : OTPSubmission) (username : String) (u : UserRecord)
    (hs : sess.noggin_username = some username)
    (hu : ipa.user_show username = some u) :
    (u.gpgkeys = [] →
      (user_settings_otp_add ipa sess form username).calls =
        [.user_show username] ∧
      (user_settings_otp_add ipa sess form username).calls.filter
        BackendCall.isMutation = [] ∧
      (user_settings_otp_add ipa sess form username).validatorCalled = false ∧
      (user_settings_otp_add ipa sess form username).flashes =
        [⟨"Cannot create an OTP token without a GPG Key. Please add a GPG Key",
          "info"⟩] ∧
      (user_settings_otp_add ipa sess form username).response =
        .redirect "user_settings_otp" (some username)) ∧
    (u.gpgkeys ≠ [] → form.valid = true →
      (user_settings_otp_add ipa sess form username).validatorCalled = true ∧
      (user_settings_otp_add ipa sess form username).calls =
        [.user_show username,
         .otptoken_add (sessionUsername sess) "sha512" form.description]) := by
  constructor
  · intro hg
    simp [user_settings_otp_add, hs, hu, hg, List.filter, BackendCall.isMutation]
  · intro hg hv
    cases hres : ipa.otptoken_add (sessionUsername sess) "sha512"
        form.description <;>
      simp [user_settings_otp_add, hs, hu, hg, hv, hres]

/-- Witness for the amended C6 at the keyless fixture. -/
theorem otp_add_gpg_precondition_witness :
    (user_settings_otp_add noKeysBackend dummySession validOTPForm
      "dummy").validatorCalled = false ∧
    (user_settings_otp_add noKeysBackend dummySession validOTPForm
      "dummy").flashes =
      [⟨"Cannot create an OTP token without a GPG Key. Please add a GPG Key",
        "info"⟩] :=
  have h := (otp_add_gpg_precondition noKeysBackend dummySession validOTPForm
    "dummy" userNoKeys (by decide) (by decide)).1 (by decide)
  ⟨h.2.2.1, h.2.2.2.1⟩

/-- C3 counterexample: a `BadRequest` with message `kaboom` raised by the
profile mutation produces no flash notification at all — the code only
logs it and attaches it to the form — so the claim that any other backend
error produces exactly one flash is false as stated. -/
theorem backend_error_no_flash_cex :
    ("kaboom" : String) ≠ "no modifications to be performed" ∧
    (user_settings_profile badRequestBackend dummySession validProfileForm
      "dummy").calls.filter BackendCall.isMutation ≠ [] ∧
    (user_settings_profile badRequestBackend dummySession validProfileForm
      "dummy").flashes = [] ∧
    (user_settings_profile badRequestBackend dummySession validProfileForm
      "dummy").logs =
      ["An error happened while editing user dummy: kaboom"] := by
  refine ⟨by decide, by decide, by decide, by decide⟩

/-- C3 amended: for a `BadRequest` from the profile/keys mutation helper,
the message `no modifications to be performed` yields no flash, no log
and a non-fatal form-level error; any other message also yields no flash,
the same form-level error, and exactly one error log containing the
target identity and the backend message. Only the OTP-add handler pairs
its backend error with a flash: a `FreeIPAError` there yields exactly one
danger flash and one error log containing the owner and the message. -/
theorem backend_error_discrimination (ipa : Backend) (sess : Session)
    (form : OTPSubmission) (username msg : String) (u : UserRecord)
    (errs : List (String × List String))
    (hmsg : msg ≠ "no modifications to be performed")
    (hs : sess.noggin_username = some username)
    (hu : ipa.user_show username = some u)
    (hg : u.gpgkeys ≠ [])
    (hv : form.valid = true)
    (he : form.errors = [])
    (hadd : ipa.otptoken_add username "sha512" form.description
      = .error msg) :
    ((user_mod_outcome (some "no modifications to be performed") errs
        username).flashes = [] ∧
     (user_mod_outcome (some "no modifications to be performed") errs
        username).logs = [] ∧
     (user_mod_outcome (some "no modifications to be performed") errs
        username).formErrors =
       setError errs "non_field_errors" ["no modifications to be performed"]) ∧
    ((user_mod_outcome (some msg) errs username).flashes = [] ∧
     (user_mod_outcome (some msg) errs username).logs =
       [s!"An error happened while editing user {username}: {msg}"] ∧
     (user_mod_outcome (some msg) errs username).formErrors =
       setError errs "non_field_errors" [msg]) ∧
    ((user_settings_otp_add ipa sess form username).flashes =
       [⟨"Cannot create the token.", "danger"⟩] ∧
     (user_settings_otp_add ipa sess form username).logs =
       [s!"An error happened while creating an OTP token for user {username}: {msg}"]) := by
  refine ⟨by simp [user_mod_outcome], by simp [user_mod_outcome, hmsg], ?_⟩
  simp [user_settings_otp_add, sessionUsername, hs, hu, hg, hv, he, hadd]

/-- Witness for the amended C3 at concrete errors. -/
theorem backend_error_discrimination_witness :
    (user_mod_outcome (some "boom") [] "dummy").flashes = [] ∧
    (user_settings_otp_add otpErrorBackend dummySession validOTPForm
      "dummy").flashes = [⟨"Cannot create the token.", "danger"⟩] :=
  have h := backend_error_discrimination otpErrorBackend dummySession
    validOTPForm "dummy" "boom" sampleUser [] (by decide) (by decide)
    (by decide) (by decide) (by decide) (by decide) rfl
  ⟨h.2.1.1, h.2.2.1⟩

/-- C8 counterexample: a failed validation on the OTP-add route does not
re-render the form — the handler flashes each field error as a danger
notification and redirects to the OTP view (`Response.redirect`, a
constructor distinct from `Response.render`). -/
theorem validation_failure_otp_add_cex :
    (user_settings_otp_add okBackend dummySession invalidOTPForm
      "dummy").response = .redirect "user_settings_otp" (some "dummy") ∧
    (user_settings_otp_add okBackend dummySession invalidOTPForm
      "dummy").flashes = [⟨"This field is required.", "danger"⟩] ∧
    (user_settings_otp_add okBackend dummySession invalidOTPForm
      "dummy").calls.filter BackendCall.isMutation = [] := by
  refine ⟨by decide, by decide, by decide⟩

/-- C8 amended: a failed validation never leads to a backend mutation
call; the profile and keys handlers re-render their form with the
field-level errors attached, while the OTP-add handler instead flashes
each field error as a danger notification and redirects to the OTP
view. -/
theorem validation_failure_no_mutation (ipa : Backend) (sess : Session)
    (pform : ProfileSubmission) (kform : KeysSubmission)
    (oform : OTPSubmission) (username : String) (u : UserRecord)
    (hs : sess.noggin_username = some username)
    (hu : ipa.user_show username = some u)
    (hp : pform.valid = false) (hk : kform.valid = false)
    (ho : oform.valid = false) (hg : u.gpgkeys ≠ []) :
    ((user_settings_profile ipa sess pform username).calls.filter
       BackendCall.isMutation = [] ∧
     (user_settings_profile ipa sess pform username).response =
       .render "user-settings-profile.html" ∧
     (user_settings_profile ipa sess pform username).formErrors =
       pform.errors) ∧
    ((user_settings_keys ipa sess kform username).calls.filter
       BackendCall.isMutation = [] ∧
     (user_settings_keys ipa sess kform username).response =
       .render "user-settings-keys.html" ∧
     (user_settings_keys ipa sess kform username).formErrors =
       kform.errors) ∧
    ((user_settings_otp_add ipa sess oform username).calls.filter
       BackendCall.isMutation = [] ∧
     (user_settings_otp_add ipa sess oform username).response =
       .redirect "user_settings_otp" (some username) ∧
     (user_settings_otp_add ipa sess oform username).flashes =
       (oform.errors.map Prod.snd).flatten.map
         (fun e => ⟨e, "danger"⟩)) := by
  refine ⟨?_, ?_, ?_⟩ <;>
    simp [user_settings_profile, user_settings_keys, user_settings_otp_add,
      hs, hu, hp, hk, ho, hg, List.filter, BackendCall.isMutation]

/-- Witness for the amended C8 at the concrete invalid submissions. -/
theorem validation_failure_no_mutation_witness :
    (user_settings_profile okBackend dummySession invalidProfileForm
      "dummy").response = .render "user-settings-profile.html" ∧
    (user_settings_keys okBackend dummySession invalidKeysForm
      "dummy").calls.filter BackendCall.isMutation = [] :=
  have h := validation_failure_no_mutation okBackend dummySession
    invalidProfileForm invalidKeysForm invalidOTPForm "dummy" sampleUser
    (by decide) (by decide) (by decide) (by decide) (by decide) (by decide)
  ⟨h.1.2.1, h.2.1.1⟩

end Noggin
